import Mathlib

/-!
# Verification of the GMTM BD lead-scoring and approval workflow

Shallow embedding of the lead-scoring engine
(`src/automations/sports-club-prospector.js`), the approval store and
workflow controller (`src/services/bd-hubspot-integration.js`), and the
`/interactivity` dispatch of `cursor-webhook-agent.js`.

Modelling conventions:
* JS numbers that are always nonnegative integers in the program
  (athlete counts, facility counts, years, scores) are `Nat`.
* The in-memory `Map` is an association list (`Store`); `Map.get` is
  first-match lookup and `Map.set` replaces in place or appends — the
  semantics of a JS `Map`.
* External collaborators (HubSpot CRM, Slack sends) are an `Env` of
  oracles: each call either succeeds with a value or throws a message.
* A JS `Date` value is `Tm.date ms`; `JSON.stringify` turns it into its
  ISO string, modelled abstractly as `Tm.str (toString ms)`.
* A function that can `throw` returns a `DecideOutcome` (normal return
  or propagated exception).  Side effects are recorded as an `Ev` trace.
-/

namespace GmtmOps

/-- A researched sports-club prospect (the fields `calculateLeadScore`,
`calculateDealValue` and the approval workflow read). -/
structure Prospect where
  clubName : String
  sport : String
  location : String
  website : String
  estimatedAthletes : Nat
  ageGroups : List String
  competitionLevel : String
  facilities : Nat
  foundedYear : Nat
  contactEmail : String
  contactPhone : String
  deriving Repr, DecidableEq

/-- Athlete-reach factor of `calculateLeadScore`
(`sports-club-prospector.js:220-223`): thresholded step function. -/
def athleteReachScore (p : Prospect) : Nat :=
  if p.estimatedAthletes ≥ 300 then 40
  else if p.estimatedAthletes ≥ 200 then 30
  else if p.estimatedAthletes ≥ 100 then 20
  else 10

/-- Competition-level factor (`sports-club-prospector.js:226-229`). -/
def competitionScore (p : Prospect) : Nat :=
  if p.competitionLevel = "National" then 25
  else if p.competitionLevel = "State" then 20
  else if p.competitionLevel = "Regional" then 15
  else 10

/-- Facility-count factor (`sports-club-prospector.js:232`):
`Math.min(facilities * 2, 15)`. -/
def facilityScore (p : Prospect) : Nat :=
  min (p.facilities * 2) 15

/-- Age-group diversity factor (`sports-club-prospector.js:235`):
`ageGroups.length * 3`, with no per-factor cap in the source. -/
def ageGroupScore (p : Prospect) : Nat :=
  p.ageGroups.length * 3

/-- Organizational-age factor (`sports-club-prospector.js:238-242`).
`yearsInBusiness` is `currentYear - foundedYear`; a founding year in the
future gives a negative JS value, which falls through to the `else`
branch exactly as truncated `Nat` subtraction does. -/
def establishedScore (currentYear : Nat) (p : Prospect) : Nat :=
  let yearsInBusiness := currentYear - p.foundedYear
  if yearsInBusiness ≥ 15 then 10
  else if yearsInBusiness ≥ 10 then 8
  else if yearsInBusiness ≥ 5 then 6
  else 4

/-- `calculateLeadScore` (`sports-club-prospector.js:216-245`): sum of
the five factors, capped at 100.  `new Date().getFullYear()` is the
explicit parameter `currentYear`. -/
def calculateLeadScore (currentYear : Nat) (p : Prospect) : Nat :=
  min (athleteReachScore p + competitionScore p + facilityScore p +
       ageGroupScore p + establishedScore currentYear p) 100

/-- A qualified lead: prospect plus score, qualification date and
priority, as assembled in `scoreAndQualifyLeads`
(`sports-club-prospector.js:200-205`). -/
structure ScoredLead where
  prospect : Prospect
  score : Nat
  qualificationDate : String
  priority : String
  deriving Repr, DecidableEq

/-- The lead record pushed by `scoreAndQualifyLeads` for a qualifying
prospect (`sports-club-prospector.js:200-205`). -/
def qualifyLead (currentYear : Nat) (qualificationDate : String)
    (p : Prospect) : ScoredLead :=
  let score := calculateLeadScore currentYear p
  { prospect := p
    score := score
    qualificationDate := qualificationDate
    priority :=
      if score ≥ 80 then "High" else if score ≥ 70 then "Medium" else "Low" }

/-- `scoreAndQualifyLeads` (`sports-club-prospector.js:191-214`): keep
prospects scoring at least 60, attach score/priority, sort by score
descending (`sort((a, b) => b.score - a.score)`, a stable sort). -/
def scoreAndQualifyLeads (currentYear : Nat) (qualificationDate : String)
    (prospects : List Prospect) : List ScoredLead :=
  (((prospects.filter (fun p => calculateLeadScore currentYear p ≥ 60)).map
      (qualifyLead currentYear qualificationDate)).mergeSort
    (fun a b => b.score ≤ a.score))

/-! ## Approval store and workflow controller
(`src/services/bd-hubspot-integration.js`) -/

/-- A JS timestamp value: a live `Date` (epoch milliseconds), or the
string it becomes after a `JSON.stringify`/`JSON.parse` round trip. -/
inductive Tm where
  | date (ms : Nat)
  | str (s : String)
  deriving Repr, DecidableEq

/-- `JSON.stringify` serializes a `Date` via its ISO string; the exact
format is irrelevant here, so the string rendering of the epoch value
stands in for it. -/
def Tm.jsonify : Tm → Tm
  | .date ms => .str (toString ms)
  | .str s => .str s

/-- The result `hubspotService.createLead` resolves with
(`hubspot-service.js:583-587`). -/
structure HubSpotResult where
  contactId : String
  dealId : String
  hubspotUrl : String
  deriving Repr, DecidableEq

/-- An entry of `pendingApprovals`.  Created by `processQualifiedLeads`
(`bd-hubspot-integration.js:79-83`) with only the first three fields;
the decision handler adds the optional fields by mutation
(`bd-hubspot-integration.js:207-210,245-247`), modelled as `Option`
fields that start out `none`. -/
structure Approval where
  leadData : ScoredLead
  createdAt : Tm
  status : String
  approvedBy : Option String := none
  approvedAt : Option Tm := none
  hubspotResult : Option HubSpotResult := none
  skippedBy : Option String := none
  skippedAt : Option Tm := none
  deriving Repr, DecidableEq

/-- What `JSON.stringify` followed by `JSON.parse` does to a stored
Approval: every field survives unchanged except `Date` values, which
come back as strings. -/
def Approval.jsonify (a : Approval) : Approval :=
  { a with
    createdAt := a.createdAt.jsonify
    approvedAt := a.approvedAt.map Tm.jsonify
    skippedAt := a.skippedAt.map Tm.jsonify }

/-- The in-memory `pendingApprovals` map, as its entry list. -/
def Store := List (String × Approval)

instance : DecidableEq Store := by
  unfold Store; infer_instance

/-- `Map.prototype.get`: first entry with the key. -/
def Store.get (m : Store) (k : String) : Option Approval :=
  match m with
  | [] => none
  | (k', v) :: rest => if k' = k then some v else Store.get rest k

/-- `Map.prototype.set`: replace the entry in place if the key exists,
otherwise append. -/
def Store.set (m : Store) (k : String) (v : Approval) : Store :=
  match m with
  | [] => [(k, v)]
  | (k', v') :: rest =>
      if k' = k then (k', v) :: rest else (k', v') :: Store.set rest k v

/-- `savePendingApprovals` (`bd-hubspot-integration.js:44-62`) writes
`Array.from(this.pendingApprovals.entries())` as JSON; the file
contents are the entry list after JSON stringification of each value. -/
def savePendingApprovals (store : Store) : List (String × Approval) :=
  store.map (fun e => (e.1, e.2.jsonify))

/-- `loadPendingApprovals` (`bd-hubspot-integration.js:25-39`) parses
the snapshot back into `new Map(data)` when the file exists, and starts
fresh otherwise. -/
def loadPendingApprovals (file : Option (List (String × Approval))) : Store :=
  match file with
  | some data => data
  | none => []

/-- One observable side effect of the workflow controller.  `save`
records a `savePendingApprovals` call, the notification constructors an
attempted Slack send, `crmCall` a `createHubSpotDeal` invocation. -/
inductive Ev where
  | putApproval (approvalId : String)
  | save
  | slackApprovalRequest (approvalId : String)
  | crmCall
  | notifyDealCreated
  | notifyError
  | notifySkipped
  deriving Repr, DecidableEq

/-- Behaviour of the external collaborators during one run: each call
either resolves (`Except.ok`) or rejects with an error message. -/
structure Env where
  crm : ScoredLead → Except String HubSpotResult
  notifyDealCreated : Except String Unit
  notifyError : Except String Unit
  notifySkipped : Except String Unit
  slackApprovalRequest : Except String Unit

/-- Value returned by `handleSlackApproval`: `success`/`message` always
present, `hubspotResult` only on a successful approve, `error` on a CRM
failure, `action` only on skip (`bd-hubspot-integration.js:224-228,
236-240, 261-265`). -/
structure DecideResult where
  success : Bool
  message : String
  hubspotResult : Option HubSpotResult := none
  error : Option String := none
  action : Option String := none
  deriving Repr, DecidableEq

/-- Outcome of an `async` JS call: a resolved value (`none` when the
function falls off the end and resolves `undefined`), or a propagated
rejection. -/
inductive DecideOutcome where
  | ok (r : Option DecideResult)
  | thrown (msg : String)
  deriving Repr, DecidableEq

/-- `handleSlackApproval` (`bd-hubspot-integration.js:192-267`),
returning the outcome, the store after the call, and the trace of side
effects in program order.  The 24-hour `setTimeout` cleanup is outside
the call's own execution and is not part of the trace. -/
def handleSlackApproval (env : Env) (store : Store) (approvalId : String)
    (action : String) (_userId : String) (userName : String) (now : Nat) :
    DecideOutcome × Store × List Ev :=
  match Store.get store approvalId with
  | none => (.thrown "Approval ID not found or expired", store, [])
  | some pendingApproval =>
    let leadData := pendingApproval.leadData
    if action = "create_hubspot_deal" then
      match env.crm leadData with
      | .ok hubspotResult =>
          let pendingApproval' :=
            { pendingApproval with
              status := "approved"
              approvedBy := some userName
              approvedAt := some (.date now)
              hubspotResult := some hubspotResult }
          let store' := Store.set store approvalId pendingApproval'
          match env.notifyDealCreated with
          | .ok _ =>
              (.ok (some
                 { success := true
                   message := "HubSpot deal created successfully"
                   hubspotResult := some hubspotResult }),
               store', [.crmCall, .notifyDealCreated, .save])
          | .error e =>
              match env.notifyError with
              | .ok _ =>
                  (.ok (some
                     { success := false
                       message := "Failed to create HubSpot deal"
                       error := some e }),
                   store', [.crmCall, .notifyDealCreated, .notifyError])
              | .error e2 =>
                  (.thrown e2, store',
                   [.crmCall, .notifyDealCreated, .notifyError])
      | .error e =>
          match env.notifyError with
          | .ok _ =>
              (.ok (some
                 { success := false
                   message := "Failed to create HubSpot deal"
                   error := some e }),
               store, [.crmCall, .notifyError])
          | .error e2 => (.thrown e2, store, [.crmCall, .notifyError])
    else if action = "skip_lead" then
      let pendingApproval' :=
        { pendingApproval with
          status := "skipped"
          skippedBy := some userName
          skippedAt := some (.date now) }
      let store' := Store.set store approvalId pendingApproval'
      match env.notifySkipped with
      | .ok _ =>
          (.ok (some
             { success := true, message := "Lead skipped",
               action := some "skipped" }),
           store', [.notifySkipped, .save])
      | .error e => (.thrown e, store', [.notifySkipped])
    else
      (.ok none, store, [])

/-- Store plus snapshot file — the mutable world of the integration
service.  `file = none` models a missing snapshot file. -/
structure SysState where
  store : Store
  file : Option (List (String × Approval))
  deriving DecidableEq

/-- One entry of the `results` array built by `processQualifiedLeads`
(`bd-hubspot-integration.js:91-104`). -/
structure ProcessEntry where
  leadId : String
  approvalId : Option String := none
  status : String
  slackNotified : Bool := false
  error : Option String := none
  deriving Repr, DecidableEq

/-- The body of `processQualifiedLeads` for one lead
(`bd-hubspot-integration.js:73-105`): generate an approval id, `set` it
in the map with status `pending`, write the snapshot file, then await
the Slack approval request; a throw from the Slack send is caught and
recorded as an error entry (the registration is not rolled back).
`approvalId` abstracts `lead_${Date.now()}_${random}`; `slack` is the
Slack send's behaviour for this lead.  Each trace event is paired with
the world state in which execution continues after it. -/
def processOneLead (slack : Except String Unit) (approvalId : String)
    (now : Nat) (st : SysState) (lead : ScoredLead) :
    SysState × List (Ev × SysState) × ProcessEntry :=
  let store1 := st.store.set approvalId
    { leadData := lead, createdAt := .date now, status := "pending" }
  let st1 : SysState := { store := store1, file := st.file }
  let st2 : SysState := { store := store1,
                          file := some (savePendingApprovals store1) }
  let trace := [(Ev.putApproval approvalId, st1), (Ev.save, st2),
                (Ev.slackApprovalRequest approvalId, st2)]
  match slack with
  | .ok _ =>
      (st2, trace,
       { leadId := lead.prospect.clubName, approvalId := some approvalId,
         status := "approval_sent", slackNotified := true })
  | .error e =>
      (st2, trace,
       { leadId := lead.prospect.clubName, status := "error",
         error := some e })

/-- `processQualifiedLeads` (`bd-hubspot-integration.js:68-109`):
sequential loop over the qualified leads.  `slack i` and `gen i` give
the Slack behaviour and the generated approval id for the lead at
position `i`. -/
def processQualifiedLeads (slack : Nat → Except String Unit)
    (gen : Nat → String) (now : Nat) :
    SysState → Nat → List ScoredLead →
    SysState × List (Ev × SysState) × List ProcessEntry
  | st, _, [] => (st, [], [])
  | st, i, lead :: rest =>
      let (st1, trace1, entry) := processOneLead (slack i) (gen i) now st lead
      let (st2, trace2, entries) :=
        processQualifiedLeads slack gen now st1 (i + 1) rest
      (st2, trace1 ++ trace2, entry :: entries)

/-! ## The `/interactivity` dispatch (`cursor-webhook-agent.js`) -/

/-- An HTTP response written by the webhook server; the handler never
lets an exception escape, so this is the only constructor. -/
inductive HttpResp where
  | respond (status : Nat) (text : String)
  deriving Repr, DecidableEq

/-- The `/interactivity` action dispatch
(`cursor-webhook-agent.js:438-503`).  For `create_hubspot_deal` the
server responds 200 immediately and runs `handleSlackApproval`
asynchronously, with `.catch` logging any rejection (returned as the
third component); for `skip_lead` it awaits the call inside
`try`/`catch`, turning a throw into an ephemeral 200 error message;
other action ids get the default echo response. -/
def routeInteractivity (env : Env) (store : Store) (actionId : String)
    (actionValue : String) (userId : String) (userName : String)
    (now : Nat) : HttpResp × Store × Option String :=
  if actionId = "create_hubspot_deal" then
    let (outcome, store', _) :=
      handleSlackApproval env store actionValue "create_hubspot_deal"
        userId userName now
    (.respond 200 "Processing HubSpot deal creation...", store',
     match outcome with
     | .thrown e => some e
     | .ok _ => none)
  else if actionId = "skip_lead" then
    match handleSlackApproval env store actionValue "skip_lead"
        userId userName now with
    | (.thrown e, store', _) =>
        (.respond 200 ("Error skipping lead: " ++ e), store', none)
    | (.ok _, store', _) =>
        (.respond 200 "Lead skipped successfully.", store', none)
  else
    (.respond 200 "You clicked the action button.", store, none)

/-! ## Concrete fixtures -/

/-- The §8 boundary prospect: reach 300, National, 10 facilities, three
age groups, founded `founded` (intended: 20 years before the current
year). -/
def boundaryProspect (founded : Nat) : Prospect :=
  { clubName := "Boundary Club"
    sport := "soccer"
    location := "California, USA"
    website := "https://example.com"
    estimatedAthletes := 300
    ageGroups := ["Youth", "High School", "College Prep"]
    competitionLevel := "National"
    facilities := 10
    foundedYear := founded
    contactEmail := "info@example.com"
    contactPhone := "(555) 100-1000" }

/-- A prospect with four age groups (otherwise like the boundary
prospect). -/
def fourGroupProspect : Prospect :=
  { boundaryProspect 2006 with
    ageGroups := ["Youth", "Middle School", "High School", "College Prep"] }

/-- A prospect scoring exactly 60: 40 (reach 300) + 10 (Local) + 0
(no facilities) + 6 (two age groups) + 4 (founded this year). -/
def sixtyProspect (year : Nat) : Prospect :=
  { boundaryProspect year with
    competitionLevel := "Local", facilities := 0,
    ageGroups := ["Youth", "Adult"] }

/-- A prospect scoring exactly 59: 40 (reach 300) + 10 (Local) + 2
(one facility) + 3 (one age group) + 4 (founded this year). -/
def fiftyNineProspect (year : Nat) : Prospect :=
  { boundaryProspect year with
    competitionLevel := "Local", facilities := 1, ageGroups := ["Youth"] }

/-! ## Scoring-engine theorems -/

/-- C3: the claim as stated is false — the age-group factor has no
per-factor cap in `calculateLeadScore`; a prospect with four age groups
gets an age-group contribution of 12, exceeding the claimed cap of
10. -/
theorem ageGroup_factor_uncapped :
    ageGroupScore fourGroupProspect = 12 ∧
    ¬ ageGroupScore fourGroupProspect ≤ 10 := by
  decide

/-- C3 (amended): `calculateLeadScore` returns a value in [0,100]
(`Nat`, clamped at 100), and four of the five factors are independently
capped — athlete reach at 40, competition level at 25, facility count
at 15, organizational age at 10 — but the age-group factor is exactly 3
points per age group with no cap; only the final sum is clamped. -/
theorem calculateLeadScore_range_and_caps (year : Nat) (p : Prospect) :
    calculateLeadScore year p ≤ 100 ∧
    athleteReachScore p ≤ 40 ∧
    competitionScore p ≤ 25 ∧
    facilityScore p ≤ 15 ∧
    establishedScore year p ≤ 10 ∧
    ageGroupScore p = p.ageGroups.length * 3 := by
  refine ⟨Nat.min_le_right _ _, ?_, ?_, ?_, ?_, rfl⟩
  · unfold athleteReachScore
    split_ifs <;> omega
  · unfold competitionScore
    split_ifs <;> omega
  · exact Nat.min_le_right _ _
  · unfold establishedScore
    dsimp only
    split_ifs <;> omega

/-- C10: every prospect scores at least 24 — the athlete-reach factor
contributes at least 10, the competition-level factor at least 10 and
the organizational-age factor at least 4 on every input, so no prospect
can score in [0, 24). -/
theorem calculateLeadScore_lower_bound (year : Nat) (p : Prospect) :
    24 ≤ calculateLeadScore year p ∧
    10 ≤ athleteReachScore p ∧
    10 ≤ competitionScore p ∧
    4 ≤ establishedScore year p := by
  have har : 10 ≤ athleteReachScore p := by
    unfold athleteReachScore
    split_ifs <;> omega
  have hc : 10 ≤ competitionScore p := by
    unfold competitionScore
    split_ifs <;> omega
  have he : 4 ≤ establishedScore year p := by
    unfold establishedScore
    dsimp only
    split_ifs <;> omega
  refine ⟨?_, har, hc, he⟩
  unfold calculateLeadScore
  omega

/-- C9: the claim as stated is false — the §8 boundary prospect
(reach 300, National, 10 facilities, 3 age groups, founded 20 years
before the current year 2026) scores 99, not 100: the age-group factor
contributes 3 × 3 = 9, not its claimed maximum 10, so the sum never
reaches the clamp. -/
theorem boundaryProspect_score_counterexample :
    calculateLeadScore 2026 (boundaryProspect 2006) = 99 ∧
    calculateLeadScore 2026 (boundaryProspect 2006) ≠ 100 := by
  decide

/-- C9 (amended): for the boundary prospect, four of the five factors
reach their caps (40 + 25 + 15 + 10) while the age-group factor
contributes 9; the total is 99 and the clamp at 100 is not hit. -/
theorem boundaryProspect_score (year : Nat) (h : 20 ≤ year) :
    athleteReachScore (boundaryProspect (year - 20)) = 40 ∧
    competitionScore (boundaryProspect (year - 20)) = 25 ∧
    facilityScore (boundaryProspect (year - 20)) = 15 ∧
    ageGroupScore (boundaryProspect (year - 20)) = 9 ∧
    establishedScore year (boundaryProspect (year - 20)) = 10 ∧
    calculateLeadScore year (boundaryProspect (year - 20)) = 99 := by
  have he : establishedScore year (boundaryProspect (year - 20)) = 10 := by
    unfold establishedScore boundaryProspect
    have : year - (year - 20) = 20 := by omega
    simp only [this]
    norm_num
  refine ⟨rfl, rfl, rfl, rfl, he, ?_⟩
  unfold calculateLeadScore
  rw [he]
  rfl

/-- Witness for `boundaryProspect_score` at the current year 2026. -/
theorem boundaryProspect_score_witness :
    20 ≤ 2026 ∧ calculateLeadScore 2026 (boundaryProspect (2026 - 20)) = 99 :=
  ⟨by norm_num, (boundaryProspect_score 2026 (by norm_num)).2.2.2.2.2⟩

/-- C4: a prospect appears in `scoreAndQualifyLeads` exactly when its
score is at least 60 (the threshold is inclusive), and every produced
lead's priority tier is High for score ≥ 80, Medium for 70 ≤ score < 80
and Low otherwise. -/
theorem scoreAndQualifyLeads_gate_and_priority (year : Nat) (qd : String)
    (ps : List Prospect) (l : ScoredLead) :
    (l ∈ scoreAndQualifyLeads year qd ps ↔
      ∃ p, p ∈ ps ∧ 60 ≤ calculateLeadScore year p ∧ l = qualifyLead year qd p)
    ∧ (l ∈ scoreAndQualifyLeads year qd ps →
        60 ≤ l.score ∧
        (80 ≤ l.score → l.priority = "High") ∧
        (70 ≤ l.score → l.score < 80 → l.priority = "Medium") ∧
        (l.score < 70 → l.priority = "Low")) := by
  have hmem : l ∈ scoreAndQualifyLeads year qd ps ↔
      ∃ p, p ∈ ps ∧ 60 ≤ calculateLeadScore year p ∧
        l = qualifyLead year qd p := by
    unfold scoreAndQualifyLeads
    rw [(List.mergeSort_perm _ _).mem_iff, List.mem_map]
    constructor
    · rintro ⟨p, hp, rfl⟩
      rw [List.mem_filter] at hp
      exact ⟨p, hp.1, by simpa using hp.2, rfl⟩
    · rintro ⟨p, hp, hs, rfl⟩
      exact ⟨p, List.mem_filter.mpr ⟨hp, by simpa using hs⟩, rfl⟩
  refine ⟨hmem, fun hl => ?_⟩
  rcases hmem.mp hl with ⟨p, _, hs, rfl⟩
  have hscore : (qualifyLead year qd p).score = calculateLeadScore year p := rfl
  have hpriority : (qualifyLead year qd p).priority =
      (if calculateLeadScore year p ≥ 80 then "High"
       else if calculateLeadScore year p ≥ 70 then "Medium" else "Low") := rfl
  refine ⟨by rw [hscore]; exact hs, ?_, ?_, ?_⟩
  · intro h80
    rw [hscore] at h80
    rw [hpriority]
    rw [if_pos h80]
  · intro h70 h80
    rw [hscore] at h70
    rw [hscore] at h80
    rw [hpriority]
    split_ifs <;> first | rfl | omega
  · intro h70
    rw [hscore] at h70
    rw [hpriority]
    split_ifs <;> first | rfl | omega

/-- Witness for `scoreAndQualifyLeads_gate_and_priority`: with the
current year 2026, the 60-point prospect is qualified (inclusive
threshold) with priority Low, while the 59-point prospect is not
qualified. -/
theorem scoreAndQualifyLeads_gate_witness :
    qualifyLead 2026 "qd" (sixtyProspect 2026) ∈
      scoreAndQualifyLeads 2026 "qd" [sixtyProspect 2026, fiftyNineProspect 2026]
    ∧ (qualifyLead 2026 "qd" (sixtyProspect 2026)).priority = "Low"
    ∧ ∀ l, l ∈ scoreAndQualifyLeads 2026 "qd" [fiftyNineProspect 2026] → False := by
  have h60 :
      qualifyLead 2026 "qd" (sixtyProspect 2026) ∈
        scoreAndQualifyLeads 2026 "qd"
          [sixtyProspect 2026, fiftyNineProspect 2026] :=
    (scoreAndQualifyLeads_gate_and_priority 2026 "qd"
        [sixtyProspect 2026, fiftyNineProspect 2026]
        (qualifyLead 2026 "qd" (sixtyProspect 2026))).1.mpr
      ⟨sixtyProspect 2026, by simp, by decide, rfl⟩
  refine ⟨h60, ?_, fun l hl => ?_⟩
  · have hpr :=
      ((scoreAndQualifyLeads_gate_and_priority 2026 "qd"
          [sixtyProspect 2026, fiftyNineProspect 2026]
          (qualifyLead 2026 "qd" (sixtyProspect 2026))).2 h60).2.2.2
    exact hpr (by decide)
  · rcases (scoreAndQualifyLeads_gate_and_priority 2026 "qd"
        [fiftyNineProspect 2026] l).1.mp hl with ⟨p, hp, hs, _⟩
    simp only [List.mem_singleton] at hp
    subst hp
    revert hs
    decide

/-! ## Store lemmas -/

/-- Looking up the key just set returns the new value. -/
theorem Store.get_set_self (m : Store) (k : String) (v : Approval) :
    (m.set k v).get k = some v := by
  induction m with
  | nil => simp [Store.set, Store.get]
  | cons e rest ih =>
      obtain ⟨k', v'⟩ := e
      by_cases h : k' = k
      · simp [Store.set, Store.get, h]
      · simp [Store.set, Store.get, h, ih]

/-- Lookup in the saved snapshot is lookup in the store, jsonified. -/
theorem Store.get_save (m : Store) (k : String) :
    Store.get (savePendingApprovals m) k =
      (Store.get m k).map Approval.jsonify := by
  induction m with
  | nil => rfl
  | cons e rest ih =>
      obtain ⟨k', v'⟩ := e
      by_cases h : k' = k
      · simp [savePendingApprovals, Store.get, h]
      · simpa [savePendingApprovals, Store.get, h] using ih

/-! ## Workflow fixtures -/

/-- A qualified lead used as concrete input. -/
def lead0 : ScoredLead := qualifyLead 2026 "2026-01-05" (boundaryProspect 2006)

/-- A pending approval for `lead0`. -/
def approval0 : Approval :=
  { leadData := lead0, createdAt := .date 1000, status := "pending" }

/-- A store holding the single pending approval `approval0` under id
`a1`. -/
def store0 : Store := [("a1", approval0)]

/-- A CRM result the HubSpot gateway resolves with. -/
def hubspot0 : HubSpotResult :=
  { contactId := "c-101", dealId := "d-202", hubspotUrl := "https://hs/c-101" }

/-- External world in which every collaborator call succeeds. -/
def env0 : Env :=
  { crm := fun _ => .ok hubspot0
    notifyDealCreated := .ok ()
    notifyError := .ok ()
    notifySkipped := .ok ()
    slackApprovalRequest := .ok () }

/-- World in which only the CRM create call rejects. -/
def envCrmFail : Env := { env0 with crm := fun _ => .error "HubSpot 500" }

/-- World in which only the deal-created notification rejects. -/
def envDealNotifyFail : Env :=
  { env0 with notifyDealCreated := .error "Slack returned 500" }

/-- World in which only the lead-skipped notification rejects. -/
def envSkipNotifyFail : Env :=
  { env0 with notifySkipped := .error "Slack returned 500" }

/-! ## Approval-workflow theorems -/

/-- C1: the claim as stated is false — `handleSlackApproval` checks
only that the approval id exists, never its status, so a second
`create_hubspot_deal` decision after a successful approve re-invokes
the CRM create call: across the two calls the CRM call is invoked
twice, not at most once. -/
theorem duplicate_approve_counterexample :
    (handleSlackApproval env0 store0 "a1" "create_hubspot_deal"
        "U1" "alice" 7).1 =
      .ok (some { success := true
                  message := "HubSpot deal created successfully"
                  hubspotResult := some hubspot0 })
    ∧ ((handleSlackApproval env0 store0 "a1" "create_hubspot_deal"
          "U1" "alice" 7).2.1.get "a1").map Approval.status = some "approved"
    ∧ (handleSlackApproval env0 store0 "a1" "create_hubspot_deal"
          "U1" "alice" 7).2.2.count .crmCall +
        (handleSlackApproval env0
          (handleSlackApproval env0 store0 "a1" "create_hubspot_deal"
            "U1" "alice" 7).2.1
          "a1" "create_hubspot_deal" "U1" "alice" 9).2.2.count .crmCall = 2 := by
  decide

/-- C1 (amended): `handleSlackApproval` guards only on existence, not
on status — every `create_hubspot_deal` decision for an id present in
the store (whatever the stored status, including an already-terminal
one) invokes the CRM create call exactly once, so a retried decision
callback re-executes the side effect instead of returning the recorded
result. -/
theorem approve_always_invokes_crm (env : Env) (store : Store)
    (id uid uname : String) (now : Nat) (pa : Approval)
    (h : Store.get store id = some pa) :
    ((handleSlackApproval env store id "create_hubspot_deal"
        uid uname now).2.2).count .crmCall = 1 := by
  rcases hc : env.crm pa.leadData with e | hr
  · rcases hne : env.notifyError with e2 | u <;>
      simp [handleSlackApproval, h, hc, hne]
  · rcases hnd : env.notifyDealCreated with e2 | u
    · rcases hne : env.notifyError with e3 | u' <;>
        simp [handleSlackApproval, h, hc, hnd, hne]
    · simp [handleSlackApproval, h, hc, hnd]

/-- Witness for `approve_always_invokes_crm`: concrete pending store,
all collaborators succeeding. -/
theorem approve_always_invokes_crm_witness :
    Store.get store0 "a1" = some approval0 ∧
    ((handleSlackApproval env0 store0 "a1" "create_hubspot_deal"
        "U1" "alice" 7).2.2).count .crmCall = 1 :=
  ⟨rfl, approve_always_invokes_crm env0 store0 "a1" "U1" "alice" 7 approval0 rfl⟩

/-- C2: if the CRM create call rejects during an approve decision, the
store is left untouched (the approval keeps status `pending` with no
`approvedBy`/`approvedAt`/`hubspotResult` set) and the caller gets a
failure: the `success = false` result carrying the CRM error when the
error notification goes through, or the error notification's own
rejection otherwise — never a success. -/
theorem crm_failure_preserves_pending (env : Env) (store : Store)
    (id uid uname : String) (now : Nat) (pa : Approval) (e : String)
    (h : Store.get store id = some pa) (hp : pa.status = "pending")
    (hcrm : env.crm pa.leadData = .error e) :
    (handleSlackApproval env store id "create_hubspot_deal"
        uid uname now).2.1 = store
    ∧ Store.get (handleSlackApproval env store id "create_hubspot_deal"
        uid uname now).2.1 id = some pa
    ∧ ((Store.get (handleSlackApproval env store id "create_hubspot_deal"
        uid uname now).2.1 id).map Approval.status = some "pending")
    ∧ (∀ res, (handleSlackApproval env store id "create_hubspot_deal"
        uid uname now).1 = .ok (some res) →
          res.success = false ∧ res.message = "Failed to create HubSpot deal"
          ∧ res.error = some e)
    ∧ (env.notifyError = .ok () →
        (handleSlackApproval env store id "create_hubspot_deal"
          uid uname now).1 =
        .ok (some { success := false
                    message := "Failed to create HubSpot deal"
                    error := some e })) := by
  rcases hne : env.notifyError with e2 | u <;>
    simp_all [handleSlackApproval, h, hcrm, hne, hp]

/-- Witness for `crm_failure_preserves_pending`: concrete pending
store with a rejecting CRM gateway. -/
theorem crm_failure_preserves_pending_witness :
    Store.get store0 "a1" = some approval0 ∧ approval0.status = "pending"
    ∧ envCrmFail.crm approval0.leadData = .error "HubSpot 500"
    ∧ (handleSlackApproval envCrmFail store0 "a1" "create_hubspot_deal"
        "U1" "alice" 7).2.1 = store0 :=
  ⟨rfl, rfl, rfl,
   (crm_failure_preserves_pending envCrmFail store0 "a1" "U1" "alice" 7
      approval0 "HubSpot 500" rfl rfl rfl).1⟩

/-- C5: a decision call for an id with no entry in the store throws
`Approval ID not found or expired` without touching the store, and the
`/interactivity` dispatch converts it into a graceful 200 response on
both paths — an ephemeral error message on the skip path, and a logged
async rejection behind the immediate acknowledgment on the approve
path — never an unhandled crash. -/
theorem decide_not_found (env : Env) (store : Store)
    (id action uid uname : String) (now : Nat)
    (h : Store.get store id = none) :
    handleSlackApproval env store id action uid uname now =
      (.thrown "Approval ID not found or expired", store, [])
    ∧ routeInteractivity env store "skip_lead" id uid uname now =
      (.respond 200 "Error skipping lead: Approval ID not found or expired",
       store, none)
    ∧ routeInteractivity env store "create_hubspot_deal" id uid uname now =
      (.respond 200 "Processing HubSpot deal creation...",
       store, some "Approval ID not found or expired") := by
  have hmain : ∀ act : String,
      handleSlackApproval env store id act uid uname now =
        (.thrown "Approval ID not found or expired", store, []) := by
    intro act
    unfold handleSlackApproval
    rw [h]
  refine ⟨hmain action, ?_, ?_⟩
  · simp [routeInteractivity, hmain]
  · simp [routeInteractivity, hmain]

/-- Witness for `decide_not_found`: the empty store. -/
theorem decide_not_found_witness :
    Store.get ([] : Store) "nonexistent-id" = none ∧
    handleSlackApproval env0 [] "nonexistent-id" "create_hubspot_deal"
        "U1" "alice" 7 =
      (.thrown "Approval ID not found or expired", [], []) :=
  ⟨rfl, (decide_not_found env0 [] "nonexistent-id" "create_hubspot_deal"
      "U1" "alice" 7 rfl).1⟩

/-- C6: the claim as stated is false — in the skip branch the
lead-skipped notification is awaited outside any try/catch, so its
exception propagates out of `handleSlackApproval` instead of being
caught and logged within the decision operation. -/
theorem skip_notification_exception_escapes :
    (handleSlackApproval envSkipNotifyFail store0 "a1" "skip_lead"
        "U1" "alice" 7).1 = .thrown "Slack returned 500" := by
  decide

/-- C6 (amended): for an approval present in the store — in the approve
branch, an exception from the deal-created notification is caught by
the same catch that handles CRM failures: the CRM call is still invoked
exactly once in that invocation and the already-applied `approved`
transition is retained in memory, but the snapshot save is skipped and
the caller gets a failure result rather than the success; in the skip
branch, an exception from the lead-skipped notification propagates out
of `handleSlackApproval` after the `skipped` transition is applied,
again with the snapshot save skipped. -/
theorem notification_failure_semantics (env : Env) (store : Store)
    (id uid uname : String) (now : Nat) (pa : Approval)
    (h : Store.get store id = some pa) :
    (∀ hr e, env.crm pa.leadData = .ok hr →
      env.notifyDealCreated = .error e →
        ((handleSlackApproval env store id "create_hubspot_deal"
            uid uname now).2.2).count .crmCall = 1
        ∧ (Store.get (handleSlackApproval env store id "create_hubspot_deal"
            uid uname now).2.1 id).map Approval.status = some "approved"
        ∧ Ev.save ∉ (handleSlackApproval env store id "create_hubspot_deal"
            uid uname now).2.2
        ∧ ∀ res, (handleSlackApproval env store id "create_hubspot_deal"
            uid uname now).1 = .ok (some res) → res.success = false)
    ∧ (∀ e, env.notifySkipped = .error e →
        (handleSlackApproval env store id "skip_lead" uid uname now).1 =
          .thrown e
        ∧ (Store.get (handleSlackApproval env store id "skip_lead"
            uid uname now).2.1 id).map Approval.status = some "skipped"
        ∧ Ev.save ∉ (handleSlackApproval env store id "skip_lead"
            uid uname now).2.2) := by
  constructor
  · intro hr e hcrm hnd
    rcases hne : env.notifyError with e2 | u <;>
      simp [handleSlackApproval, h, hcrm, hnd, hne, Store.get_set_self]
  · intro e hns
    simp [handleSlackApproval, h, hns, Store.get_set_self]

/-- Witness for `notification_failure_semantics`: concrete pending
store, with the deal-created notification failing on the approve path
and the skip notification failing on the skip path. -/
theorem notification_failure_semantics_witness :
    Store.get store0 "a1" = some approval0
    ∧ ((handleSlackApproval envDealNotifyFail store0 "a1"
        "create_hubspot_deal" "U1" "alice" 7).2.2).count .crmCall = 1
    ∧ (handleSlackApproval envSkipNotifyFail store0 "a1" "skip_lead"
        "U1" "alice" 7).1 = .thrown "Slack returned 500" :=
  ⟨rfl,
   ((notification_failure_semantics envDealNotifyFail store0 "a1" "U1"
       "alice" 7 approval0 rfl).1 hubspot0 "Slack returned 500" rfl rfl).1,
   ((notification_failure_semantics envSkipNotifyFail store0 "a1" "U1"
       "alice" 7 approval0 rfl).2 "Slack returned 500" rfl).1⟩

/-- C7: durability round trip — saving the store and reloading the
snapshot yields, for every registered approval id, an entry with the
same id, the same `status` and the same `leadData` (only `Date`-valued
fields change representation, into their ISO strings). -/
theorem approval_roundtrip (store : Store) (id : String) (a : Approval)
    (h : Store.get store id = some a) :
    Store.get (loadPendingApprovals (some (savePendingApprovals store))) id
      = some a.jsonify
    ∧ a.jsonify.status = a.status
    ∧ a.jsonify.leadData = a.leadData := by
  refine ⟨?_, rfl, rfl⟩
  show Store.get (savePendingApprovals store) id = some a.jsonify
  rw [Store.get_save, h]
  rfl

/-- Witness for `approval_roundtrip` on the concrete store. -/
theorem approval_roundtrip_witness :
    Store.get store0 "a1" = some approval0 ∧
    Store.get (loadPendingApprovals (some (savePendingApprovals store0))) "a1"
      = some approval0.jsonify
    ∧ approval0.jsonify.status = approval0.status
    ∧ approval0.jsonify.leadData = approval0.leadData :=
  ⟨rfl, approval_roundtrip store0 "a1" approval0 rfl⟩

/-! ## Registration ordering (C8) -/

/-- The fresh approval `processQualifiedLeads` registers for a lead
(`bd-hubspot-integration.js:79-83`). -/
def freshApproval (lead : ScoredLead) (now : Nat) : Approval :=
  { leadData := lead, createdAt := .date now, status := "pending" }

/-- Characterization of `processOneLead`: whatever the Slack send does,
the resulting state has the approval registered and the snapshot file
written, and the trace is put, save, prompt — in that order, each event
paired with the state it executes in. -/
theorem processOneLead_spec (s : Except String Unit) (idv : String)
    (now : Nat) (st : SysState) (lead : ScoredLead) :
    (processOneLead s idv now st lead).1 =
      ⟨st.store.set idv (freshApproval lead now),
       some (savePendingApprovals (st.store.set idv (freshApproval lead now)))⟩
    ∧ (processOneLead s idv now st lead).2.1 =
      [(Ev.putApproval idv,
        ⟨st.store.set idv (freshApproval lead now), st.file⟩),
       (Ev.save,
        ⟨st.store.set idv (freshApproval lead now),
         some (savePendingApprovals
           (st.store.set idv (freshApproval lead now)))⟩),
       (Ev.slackApprovalRequest idv,
        ⟨st.store.set idv (freshApproval lead now),
         some (savePendingApprovals
           (st.store.set idv (freshApproval lead now)))⟩)] := by
  cases s <;> exact ⟨rfl, rfl⟩

/-- C8: within one approval's lifecycle in `processQualifiedLeads`, the
in-memory registration and the synchronous snapshot write happen
strictly before the Slack approval prompt — the per-lead trace is
exactly put, save, prompt — and at every prompt-dispatch event the
state already holds the approval with status `pending`, with the
snapshot file equal to the saved store, so a decision callback arriving
immediately after dispatch finds the Approval both in memory and in the
durable snapshot. -/
theorem registration_durable_before_prompt (slack : Nat → Except String Unit)
    (gen : Nat → String) (now : Nat) (st : SysState) (i : Nat)
    (leads : List ScoredLead) :
    (∀ j st0 lead, ((processOneLead (slack j) (gen j) now st0 lead).2.1).map
        Prod.fst =
      [.putApproval (gen j), .save, .slackApprovalRequest (gen j)])
    ∧ (∀ st' id, (Ev.slackApprovalRequest id, st') ∈
        (processQualifiedLeads slack gen now st i leads).2.1 →
          (Store.get st'.store id).map Approval.status = some "pending"
          ∧ st'.file = some (savePendingApprovals st'.store)
          ∧ Store.get (loadPendingApprovals st'.file) id =
              (Store.get st'.store id).map Approval.jsonify) := by
  constructor
  · intro j st0 lead
    rw [(processOneLead_spec (slack j) (gen j) now st0 lead).2]
    rfl
  · induction leads generalizing st i with
    | nil => intro st' id h; simp [processQualifiedLeads] at h
    | cons lead rest ih =>
        intro st' id h
        rcases hpe : processOneLead (slack i) (gen i) now st lead
          with ⟨st1, tr1, en⟩
        have htr : tr1 =
            [(Ev.putApproval (gen i),
              ⟨st.store.set (gen i) (freshApproval lead now), st.file⟩),
             (Ev.save,
              ⟨st.store.set (gen i) (freshApproval lead now),
               some (savePendingApprovals
                 (st.store.set (gen i) (freshApproval lead now)))⟩),
             (Ev.slackApprovalRequest (gen i),
              ⟨st.store.set (gen i) (freshApproval lead now),
               some (savePendingApprovals
                 (st.store.set (gen i) (freshApproval lead now)))⟩)] := by
          have h2 := (processOneLead_spec (slack i) (gen i) now st lead).2
          rw [hpe] at h2
          exact h2
        rcases hpq : processQualifiedLeads slack gen now st1 (i + 1) rest
          with ⟨st2, tr2, ens⟩
        rw [processQualifiedLeads, hpe] at h
        dsimp only at h
        rw [hpq] at h
        dsimp only at h
        simp only [List.mem_append] at h
        rcases h with h | h
        · rw [htr] at h
          simp only [List.mem_cons, List.not_mem_nil, or_false,
            Prod.mk.injEq] at h
          rcases h with ⟨hev, _⟩ | ⟨hev, _⟩ | ⟨hev, hst⟩
          · exact absurd hev (by simp)
          · exact absurd hev (by simp)
          · injection hev with hid
            subst hid
            subst hst
            refine ⟨?_, rfl, ?_⟩
            · rw [Store.get_set_self]
              rfl
            · exact Store.get_save _ _
        · have := ih st1 (i + 1) st' id
          rw [hpq] at this
          exact this h

/-- The state in which the Slack prompt for `lead0` is dispatched when
processing starts from an empty store. -/
def promptState : SysState :=
  ⟨[("a1", freshApproval lead0 5)],
   some (savePendingApprovals [("a1", freshApproval lead0 5)])⟩

/-- Witness for `registration_durable_before_prompt`: one lead
processed from the empty store, with the prompt-dispatch trace event
found concretely. -/
theorem registration_durable_before_prompt_witness :
    (Ev.slackApprovalRequest "a1", promptState) ∈
      (processQualifiedLeads (fun _ => .ok ()) (fun _ => "a1") 5
        ⟨[], none⟩ 0 [lead0]).2.1
    ∧ (Store.get promptState.store "a1").map Approval.status = some "pending"
    ∧ promptState.file = some (savePendingApprovals promptState.store)
    ∧ Store.get (loadPendingApprovals promptState.file) "a1" =
        (Store.get promptState.store "a1").map Approval.jsonify :=
  ⟨by decide,
   (registration_durable_before_prompt (fun _ => .ok ()) (fun _ => "a1") 5
      ⟨[], none⟩ 0 [lead0]).2 promptState "a1" (by decide)⟩

end GmtmOps
